import Mathlib

/-!
Shallow embedding of the message-routing and session-correlation subsystem
of the promptty repository (TypeScript), for checking the natural-language
specification against the code.

Embedded source files:
* `src/config/types.ts` — response filter (`shouldRespondToMessage`,
  `checkSingleMode`) and channel keys (`makeChannelKey`, `parseChannelKey`);
* the session store (`findSession`, `createSession`, `getOrCreateSession`,
  `extendSession`, `cleanupExpiredSessions`, `getSessionById`);
* the platform router (`sendUpdate`, `sendToChannel`, `getAvailableChannels`)
  together with the per-platform send primitives of
  `src/platforms/slack/adapter.ts` and `src/platforms/teams/adapter.ts`.

Modelling conventions:
* `Date.now()` becomes an explicit `now : Nat` argument taken at the point
  the TypeScript function calls `Date.now()`.
* `randomUUID()` becomes a fresh-id counter carried in the store state;
  only freshness of the generated id matters to the claims.
* JavaScript `RegExp` construction and testing is external library code;
  it is modelled as an oracle `rt : String → String → Option Bool` where
  `none` plays the role of the constructor throwing on a malformed pattern
  and `some b` the role of a successful compile whose `test` returns `b`.
  The `try/catch` around it maps `none` to `false` exactly as the source
  maps a throw to `false`.
* Outbound platform SDK calls (`chat.postMessage`, `continueConversation`,
  channel listing) are external I/O; each is an oracle returning
  `Except String α`, where `.error` plays the role of the call throwing
  and is handled exactly where the source has a `try/catch`.
-/

/-- `'slack' | 'teams'` platform union from the source. -/
inductive Platform where
  | slack
  | teams
deriving DecidableEq, Repr

/-- `MessageFilterContext` from `src/config/types.ts` (the `botUserId`
field is unused by the filter and omitted). -/
structure MessageFilterContext where
  text : String
  isMention : Bool
  isDM : Bool
  isThread : Bool
deriving Repr

/-- `ResponseFilter` from `src/config/types.ts`.  `mode` is a `String`
because `checkSingleMode` receives it as `string` and has a `default`
branch; `keywords`, `patterns` and `combineModes` are optional arrays
(`Option (List String)`, `none` = absent). -/
structure ResponseFilter where
  mode : String
  keywords : Option (List String) := none
  patterns : Option (List String) := none
  allowDMs : Bool := true
  combineModes : Option (List String) := none
deriving Repr

/-- `needle.isPrefixOf hay` on characters; used to embed JavaScript
`String.prototype.includes`. -/
def charsHavePrefix : List Char → List Char → Bool
  | [], _ => true
  | _ :: _, [] => false
  | a :: as, b :: bs => a == b && charsHavePrefix as bs

/-- JavaScript `hay.includes(needle)`: `needle` occurs contiguously in
`hay`. -/
def charsContain (hay needle : List Char) : Bool :=
  match hay with
  | [] => needle.isEmpty
  | _ :: rest => charsHavePrefix needle hay || charsContain rest needle

/-- JavaScript `hay.includes(needle)` on strings. -/
def strIncludes (hay needle : String) : Bool :=
  charsContain hay.data needle.data

/-- `checkSingleMode(mode, filter, context)` from `src/config/types.ts`.
`rt` is the `RegExp` oracle: `rt pattern text = none` models
`new RegExp(pattern, 'i')` throwing (malformed pattern, caught and turned
into `false` by the source's `try/catch`), `some b` models a successful
compile whose case-insensitive `test(text)` returns `b`. -/
def checkSingleMode (rt : String → String → Option Bool)
    (mode : String) (filter : ResponseFilter)
    (context : MessageFilterContext) : Bool :=
  if mode = "all" then true
  else if mode = "none" then false
  else if mode = "mentions" then context.isMention
  else if mode = "threads" then context.isThread
  else if mode = "keywords" then
    match filter.keywords with
    | none => false
    | some kws =>
      if kws.length = 0 then false
      else kws.any fun kw =>
        strIncludes context.text.toLower kw.toLower
  else if mode = "regex" then
    match filter.patterns with
    | none => false
    | some ps =>
      if ps.length = 0 then false
      else ps.any fun pattern =>
        match rt pattern context.text with
        | some b => b
        | none => false
  else context.isMention

/-- The tail of `shouldRespondToMessage` after the DM special case:
`combineModes` OR-evaluation when present and non-empty, otherwise the
single-mode check of `filter.mode`. -/
def modesCheck (rt : String → String → Option Bool)
    (filter : ResponseFilter) (context : MessageFilterContext) : Bool :=
  match filter.combineModes with
  | some ms =>
    if ms.length > 0 then ms.any fun m => checkSingleMode rt m filter context
    else checkSingleMode rt filter.mode filter context
  | none => checkSingleMode rt filter.mode filter context

/-- `shouldRespondToMessage(filter, context)` from `src/config/types.ts`.
`filter = none` models the `undefined` filter. -/
def shouldRespondToMessage (rt : String → String → Option Bool)
    (filter : Option ResponseFilter)
    (context : MessageFilterContext) : Bool :=
  match filter with
  | none => context.isMention || context.isDM
  | some f =>
    if context.isDM && f.allowDMs then true
    else modesCheck rt f context

/-- `ChannelKey` from `src/config/types.ts`. -/
structure ChannelKey where
  platform : Platform
  workspaceId : String
  channelId : String
deriving DecidableEq, Repr

/-- The literal text of a platform tag. -/
def Platform.tag : Platform → String
  | .slack => "slack"
  | .teams => "teams"

/-- `makeChannelKey(key)` from `src/config/types.ts`:
the template literal `platform:workspaceId/channelId`. -/
def makeChannelKey (key : ChannelKey) : String :=
  key.platform.tag ++ ":" ++ key.workspaceId ++ "/" ++ key.channelId

/-- The `(slack|teams):` alternation at the start of the key regex:
strips a literal `slack:` or `teams:` from the character list. -/
def stripPlatformTag : List Char → Option (Platform × List Char)
  | 's' :: 'l' :: 'a' :: 'c' :: 'k' :: ':' :: rest => some (.slack, rest)
  | 't' :: 'e' :: 'a' :: 'm' :: 's' :: ':' :: rest => some (.teams, rest)
  | _ => none

/-- Splits a character list at its first `'/'`:
`some (before, after)` when a slash exists, `none` otherwise.  This is
how the greedy `([^/]+)\/(.+)` of the key regex divides the remainder:
the first group cannot contain a slash, so it ends at the first one. -/
def splitAtFirstSlash : List Char → Option (List Char × List Char)
  | [] => none
  | c :: rest =>
    if c = '/' then some ([], rest)
    else
      match splitAtFirstSlash rest with
      | some (before, after) => some (c :: before, after)
      | none => none

/-- The four characters JavaScript `.` (without the `s` flag) refuses to
match: LF, CR, LINE SEPARATOR U+2028 and PARAGRAPH SEPARATOR U+2029. -/
def isLineTerminator (c : Char) : Bool :=
  c = '\n' || c = '\r' || c = '\u2028' || c = '\u2029'

/-- `parseChannelKey(key)` from `src/config/types.ts`: the anchored match
of `^(slack|teams):([^/]+)\/(.+)$`, returning `none` where the source
returns `null`.  `([^/]+)` demands a non-empty slash-free workspace id
(a negated class, so line terminators are allowed there); `(.+)$`
demands a non-empty channel id that contains no line terminator, because
JavaScript `.` without the `s` flag cannot match one and `$` without `m`
matches only at the very end of the input, so `(.+)` must consume the
entire remainder. -/
def parseChannelKey (key : String) : Option ChannelKey :=
  match stripPlatformTag key.data with
  | none => none
  | some (p, rest) =>
    match splitAtFirstSlash rest with
    | none => none
    | some (workspace, channel) =>
      if workspace.isEmpty then none
      else if channel.isEmpty then none
      else if channel.any isLineTerminator then none
      else some ⟨p, ⟨workspace⟩, ⟨channel⟩⟩

/-! ## Session store (the `sessions` SQLite table and its operations) -/

/-- `Session` from the session store source.  `id` is a `Nat` standing for
the `randomUUID()` string; freshness is supplied by the store's id
counter. -/
structure Session where
  id : Nat
  platform : Platform
  workspaceId : String
  channelId : String
  threadId : Option String
  claudeSessionId : Option String
  lastActivity : Nat
  expiresAt : Nat
  createdAt : Nat
deriving DecidableEq, Repr

/-- `SessionKey` from the session store source. -/
structure SessionKey where
  platform : Platform
  workspaceId : String
  channelId : String
  threadId : Option String := none
deriving DecidableEq, Repr

/-- The `sessions` table plus the fresh-id supply standing for
`randomUUID()`. -/
structure Store where
  sessions : List Session
  nextId : Nat
deriving DecidableEq, Repr

/-- The row-matching predicate of the `findSession` query's `WHERE`
clause, minus the expiry test: platform, workspace, channel equal, and
`thread_id = ? OR (thread_id IS NULL AND ? IS NULL)`. -/
def matchesKey (s : Session) (k : SessionKey) : Bool :=
  s.platform == k.platform && s.workspaceId == k.workspaceId &&
    s.channelId == k.channelId && s.threadId == k.threadId

/-- `ORDER BY last_activity DESC LIMIT 1`: the first row of maximal
`last_activity` among the candidates (tie order among equal
`last_activity` values is unspecified in SQLite; the fold fixes it
deterministically). -/
def pickMostRecent (rows : List Session) : Option Session :=
  rows.foldl
    (fun acc s =>
      match acc with
      | none => some s
      | some best => if s.lastActivity > best.lastActivity then some s else some best)
    none

/-- The rows the `findSession` query's `WHERE` clause selects for a key
at time `t`: key match plus `expires_at > t`. -/
def liveFor (st : Store) (k : SessionKey) (t : Nat) : List Session :=
  st.sessions.filter fun s => matchesKey s k && decide (s.expiresAt > t)

/-- `findSession(key)` from the session store source, at time `now`
(= `Date.now()`).  Selects the live rows matching the key
(`expires_at > now`), takes the most recently active one, and as a side
effect bumps that row's `last_activity` to `now`.  The returned `Session`
is built from the row as read, i.e. before the `UPDATE`, exactly as the
source returns `rowToSession(row)`. -/
def findSession (key : SessionKey) (now : Nat) (st : Store) :
    Option Session × Store :=
  match pickMostRecent (liveFor st key now) with
  | none => (none, st)
  | some row =>
    (some row,
      { st with
          sessions := st.sessions.map fun s =>
            if s.id = row.id then { s with lastActivity := now } else s })

/-- `createSession(key, ttl)` from the session store source, at time
`now`: inserts a fresh row with `expires_at = now + ttl` and returns it. -/
def createSession (key : SessionKey) (ttl : Nat) (now : Nat) (st : Store) :
    Session × Store :=
  let s : Session :=
    { id := st.nextId
      platform := key.platform
      workspaceId := key.workspaceId
      channelId := key.channelId
      threadId := key.threadId
      claudeSessionId := none
      lastActivity := now
      expiresAt := now + ttl
      createdAt := now }
  (s, { sessions := st.sessions ++ [s], nextId := st.nextId + 1 })

/-- `getOrCreateSession(key, ttl)` from the session store source, at time
`now`: `findSession`, falling back to `createSession`. -/
def getOrCreateSession (key : SessionKey) (ttl : Nat) (now : Nat)
    (st : Store) : Session × Store :=
  match findSession key now st with
  | (some existing, st') => (existing, st')
  | (none, st') => createSession key ttl now st'

/-- `extendSession(sessionId, ttl)` from the session store source, at
time `now`: sets `last_activity = now` and `expires_at = now + ttl` on
the row with that id. -/
def extendSession (sessionId : Nat) (ttl : Nat) (now : Nat) (st : Store) :
    Store :=
  { st with
      sessions := st.sessions.map fun s =>
        if s.id = sessionId then
          { s with lastActivity := now, expiresAt := now + ttl }
        else s }

/-- `cleanupExpiredSessions()` from the session store source, at time
`now`: `DELETE FROM sessions WHERE expires_at < now`, returning the
number of deleted rows. -/
def cleanupExpiredSessions (now : Nat) (st : Store) : Nat × Store :=
  let kept := st.sessions.filter fun s => !decide (s.expiresAt < now)
  (st.sessions.length - kept.length, { st with sessions := kept })

/-- `getSessionById(sessionId)` from the session store source. -/
def getSessionById (sessionId : Nat) (st : Store) : Option Session :=
  st.sessions.find? fun s => s.id == sessionId

/-- "At most one live session per key" invariant of the spec, stated at a
single time `t`. -/
def atMostOneLive (st : Store) (k : SessionKey) (t : Nat) : Prop :=
  (liveFor st k t).length ≤ 1

/-! ## Platform adapters and router -/

/-- `SlackMessageContext` held in the Slack adapter's `activeContexts`
map (only the fields the send primitives read are kept). -/
structure SlackContext where
  channelId : String
  threadTs : Option String
deriving Repr

/-- `TeamsMessageContext` held in the Teams adapter's `activeContexts`
map; `conversationReference` is an opaque handle (a tag suffices for the
claims). -/
structure TeamsContext where
  conversationReference : String
deriving Repr

/-- A Teams `Partial<ConversationReference>` stored in the
`conversationReferences` map, keyed by channel id. -/
structure ConversationRef where
  handle : String
deriving Repr

/-- `UpdateType` from the router source. -/
inductive UpdateType where
  | progress
  | warning
  | success
  | error
deriving DecidableEq, Repr

/-- `SendMessageResult` from the router and adapter sources. -/
structure SendMessageResult where
  success : Bool
  messageId : Option String := none
  threadTs : Option String := none
  error : Option String := none
deriving DecidableEq, Repr

/-- `ChannelTarget` from the router and adapter sources. -/
structure ChannelTarget where
  platform : Platform
  channelId : String
  workspaceId : Option String := none
  message : String
  threadTs : Option String := none
deriving Repr

/-- `ChannelInfo` from the router and adapter sources. -/
structure ChannelInfo where
  platform : Platform
  channelId : String
  name : Option String := none
  workspaceId : Option String := none
  configured : Bool
deriving DecidableEq, Repr

/-- The process-wide mutable state the router touches: the session store
plus each adapter's module-level state (`app` / `adapter` initialization
flags, the per-platform `activeContexts` maps, and the Teams
`conversationReferences` cache). -/
structure SystemState where
  store : Store
  slackApp : Bool
  teamsAdapter : Bool
  slackContexts : List (Nat × SlackContext)
  teamsContexts : List (Nat × TeamsContext)
  conversationReferences : List (String × ConversationRef)

/-- `Map.get` on an association list modelling a JavaScript `Map`. -/
def mapGet {κ α : Type} [BEq κ] (m : List (κ × α)) (k : κ) : Option α :=
  (m.find? fun e => e.1 == k).map Prod.snd

/-- The outcome oracles for the external platform SDK calls.  `.error`
models the awaited call throwing (network failure etc.); the values
carried by `.ok` are whatever the SDK reports (message timestamp / id). -/
structure SendOracles where
  slackPost : String → Option String → String → Except String String
  teamsSend : String → String → Except String (Option String)

/-- `sendSlackUpdate(sessionId, message, type)` from
`src/platforms/slack/adapter.ts`: no registered active context or
uninitialized app → `false`; otherwise post into the stored channel and
thread, a throw caught as `false`. -/
def sendSlackUpdate (oracles : SendOracles) (st : SystemState)
    (sessionId : Nat) (message : String) (_type : UpdateType) : Bool :=
  match mapGet st.slackContexts sessionId with
  | none => false
  | some context =>
    if !st.slackApp then false
    else
      match oracles.slackPost context.channelId context.threadTs message with
      | .ok _ => true
      | .error _ => false

/-- `sendTeamsUpdate(sessionId, message, type)` from
`src/platforms/teams/adapter.ts`: no registered active context or
uninitialized adapter → `false`; otherwise continue the stored
conversation, a throw caught as `false`. -/
def sendTeamsUpdate (oracles : SendOracles) (st : SystemState)
    (sessionId : Nat) (message : String) (_type : UpdateType) : Bool :=
  match mapGet st.teamsContexts sessionId with
  | none => false
  | some context =>
    if !st.teamsAdapter then false
    else
      match oracles.teamsSend context.conversationReference message with
      | .ok _ => true
      | .error _ => false

/-- `sendUpdate(sessionId, message, type)` from the router source:
resolve the session by id (unknown → `false`), then dispatch on its
recorded platform. -/
def sendUpdate (oracles : SendOracles) (st : SystemState)
    (sessionId : Nat) (message : String) (type : UpdateType) : Bool :=
  match getSessionById sessionId st.store with
  | none => false
  | some session =>
    match session.platform with
    | .slack => sendSlackUpdate oracles st sessionId message type
    | .teams => sendTeamsUpdate oracles st sessionId message type

/-- `sendSlackToChannel(target)` from `src/platforms/slack/adapter.ts`:
uninitialized app → failure result; otherwise post directly to the
target channel (no addressing cache is consulted), a throw caught and
returned as `{success:false, error}`. -/
def sendSlackToChannel (oracles : SendOracles) (st : SystemState)
    (target : ChannelTarget) : SendMessageResult :=
  if !st.slackApp then
    { success := false, error := some "Slack app not initialized" }
  else
    match oracles.slackPost target.channelId target.threadTs target.message with
    | .ok ts =>
      { success := true, messageId := some ts
        threadTs := some (target.threadTs.getD ts) }
    | .error e => { success := false, error := some e }

/-- `sendTeamsToChannel(target)` from `src/platforms/teams/adapter.ts`:
uninitialized adapter → failure result; no stored conversation reference
for the channel → the descriptive failure result; otherwise continue the
stored conversation, a throw caught and returned as
`{success:false, error}`. -/
def sendTeamsToChannel (oracles : SendOracles) (st : SystemState)
    (target : ChannelTarget) : SendMessageResult :=
  if !st.teamsAdapter then
    { success := false, error := some "Teams adapter not initialized" }
  else
    match mapGet st.conversationReferences target.channelId with
    | none =>
      { success := false
        error := some "No conversation reference for channel - the bot must first receive a message from this channel" }
    | some reference =>
      match oracles.teamsSend reference.handle target.message with
      | .ok messageId => { success := true, messageId := messageId }
      | .error e => { success := false, error := some e }

/-- `sendToChannel(target)` from the router source: dispatch on the
target platform (both branches are total here, so the router's own
`catch` arm is unreachable, as is the unknown-platform arm under the
closed `Platform` type). -/
def sendToChannel (oracles : SendOracles) (st : SystemState)
    (target : ChannelTarget) : SendMessageResult :=
  match target.platform with
  | .slack => sendSlackToChannel oracles st target
  | .teams => sendTeamsToChannel oracles st target

/-- Updates the first `channels` entry with the given platform and
channel id to carry the name `nm`; embeds the source's
`channels.find(...)` followed by a mutation of the found entry. -/
def setFirstName (p : Platform) (cid : String) (nm : String) :
    List ChannelInfo → List ChannelInfo
  | [] => []
  | c :: rest =>
    if c.platform == p && c.channelId == cid then
      { c with name := some nm } :: rest
    else c :: setFirstName p cid nm rest

/-- The live-channel merging loop of `getAvailableChannels`: each live
channel not yet present (same platform and channel id) is appended with
`configured := false`; otherwise, when the live entry carries a name, the
first matching entry's name is updated.  (A live `name` that is the empty
string is falsy in the source and modelled as `none`.) -/
def mergeLive (p : Platform) (channels : List ChannelInfo)
    (live : List ChannelInfo) : List ChannelInfo :=
  live.foldl
    (fun acc ch =>
      if acc.any fun c => c.platform == p && c.channelId == ch.channelId then
        match ch.name with
        | some nm => setFirstName p ch.channelId nm acc
        | none => acc
      else acc ++ [{ ch with configured := false }])
    channels

/-- `getAvailableChannels(sessionId)` from the router source.  `config`
is `Object.keys(config.channels)` of the loaded configuration; the keys
are matched against the very same `^(slack|teams):([^/]+)\/(.+)$` regex,
embedded by `parseChannelKey`.  `listOracle` models the awaited
`getSlackChannels()` / `getTeamsChannels()` call of the session's
platform; a throw (`.error`) is caught and the configured list returned
as built so far. -/
def getAvailableChannels (listOracle : Platform → Except String (List ChannelInfo))
    (st : SystemState) (config : List String) (sessionId : Nat) :
    List ChannelInfo :=
  match getSessionById sessionId st.store with
  | none => []
  | some session =>
    let channels := config.foldl
      (fun acc key =>
        match parseChannelKey key with
        | some k =>
          acc ++ [{ platform := k.platform, channelId := k.channelId
                    workspaceId := some k.workspaceId, configured := true }]
        | none => acc)
      []
    match listOracle session.platform with
    | .ok live => mergeLive session.platform channels live
    | .error _ => channels

/-! ## Theorems -/

/-- C4: for every policy with `allowDMs = true` and every context with
`isDM = true`, `shouldRespondToMessage` returns `true` immediately,
regardless of the policy's mode (including `"none"`) and of
`combineModes`; when `isDM` is `true` but `allowDMs` is `false`,
evaluation falls through to the `combineModes`/mode checks
(`modesCheck`). -/
theorem c4_dm_short_circuit (rt : String → String → Option Bool)
    (f : ResponseFilter) (ctx : MessageFilterContext) :
    (ctx.isDM = true → f.allowDMs = true →
      shouldRespondToMessage rt (some f) ctx = true) ∧
    (ctx.isDM = true → f.allowDMs = false →
      shouldRespondToMessage rt (some f) ctx = modesCheck rt f ctx) := by
  constructor <;> intro h1 h2 <;> simp [shouldRespondToMessage, h1, h2]

/-- Witness for C4 at concrete inputs: a DM with mode `"none"` and
`allowDMs = true` is answered; with `allowDMs = false` the mode logic
decides. -/
theorem c4_dm_short_circuit_witness :
    shouldRespondToMessage (fun _ _ => none)
      (some { mode := "none" }) ⟨"hi", false, true, false⟩ = true ∧
    shouldRespondToMessage (fun _ _ => none)
      (some { mode := "none", allowDMs := false }) ⟨"hi", false, true, false⟩
      = modesCheck (fun _ _ => none)
          { mode := "none", allowDMs := false } ⟨"hi", false, true, false⟩ :=
  ⟨(c4_dm_short_circuit (fun _ _ => none) { mode := "none" }
      ⟨"hi", false, true, false⟩).1 rfl rfl,
   (c4_dm_short_circuit (fun _ _ => none) { mode := "none", allowDMs := false }
      ⟨"hi", false, true, false⟩).2 rfl rfl⟩

/-- C5: for a policy with mode `"keywords"` and no `combineModes`, on a
context where the DM rule does not fire, `shouldRespondToMessage` is
`true` iff the keyword list is non-empty and the lowercased text contains
some lowercased keyword as a substring; an empty or absent list gives
`false` for every text. -/
theorem c5_keywords_substring (rt : String → String → Option Bool)
    (f : ResponseFilter) (ctx : MessageFilterContext)
    (hm : f.mode = "keywords")
    (hc : f.combineModes = none ∨ f.combineModes = some [])
    (hdm : (ctx.isDM && f.allowDMs) = false) :
    shouldRespondToMessage rt (some f) ctx = true ↔
      f.keywords.getD [] ≠ [] ∧
        ∃ kw ∈ f.keywords.getD [],
          strIncludes ctx.text.toLower kw.toLower = true := by
  have hmc : modesCheck rt f ctx = checkSingleMode rt f.mode f ctx := by
    rcases hc with hc | hc <;> simp [modesCheck, hc]
  rw [shouldRespondToMessage, hdm, if_neg (by simp), hmc, hm,
    checkSingleMode]
  cases hk : f.keywords with
  | none => simp [hk]
  | some kws =>
    cases kws with
    | nil => simp
    | cons a as => simp [List.any_eq_true]

/-- Witness for C5 at concrete inputs (scenario B of the spec):
keywords `["deploy", "help"]`, text `"please HELP me"` hits, text
`"please assist me"` misses. -/
theorem c5_keywords_substring_witness :
    (shouldRespondToMessage (fun _ _ => none)
        (some { mode := "keywords", keywords := some ["deploy", "help"],
                allowDMs := false })
        ⟨"please HELP me", false, false, false⟩ = true ↔
      (some ["deploy", "help"] : Option (List String)).getD [] ≠ [] ∧
        ∃ kw ∈ (some ["deploy", "help"] : Option (List String)).getD [],
          strIncludes ("please HELP me" : String).toLower kw.toLower
            = true) :=
  c5_keywords_substring (fun _ _ => none)
    { mode := "keywords", keywords := some ["deploy", "help"],
      allowDMs := false }
    ⟨"please HELP me", false, false, false⟩ rfl (Or.inl rfl) rfl

/-- C6: for a policy with mode `"regex"` and no `combineModes`, on a
context where the DM rule does not fire, the result equals the OR over
patterns of "compiles and matches", a malformed pattern
(`rt p text = none`, the constructor throw caught by the source) counting
as a non-match while later patterns are still tried; in particular when
every pattern is malformed the result is `false`.  The embedding is total,
so no evaluation of the regex mode signals an exception. -/
theorem c6_regex_never_throws (rt : String → String → Option Bool)
    (f : ResponseFilter) (ctx : MessageFilterContext)
    (hm : f.mode = "regex")
    (hc : f.combineModes = none ∨ f.combineModes = some [])
    (hdm : (ctx.isDM && f.allowDMs) = false) :
    shouldRespondToMessage rt (some f) ctx =
      (f.patterns.getD []).any (fun p => (rt p ctx.text).getD false) ∧
    ((∀ p ∈ f.patterns.getD [], rt p ctx.text = none) →
      shouldRespondToMessage rt (some f) ctx = false) := by
  have hmc : modesCheck rt f ctx = checkSingleMode rt f.mode f ctx := by
    rcases hc with hc | hc <;> simp [modesCheck, hc]
  have hmain : shouldRespondToMessage rt (some f) ctx =
      (f.patterns.getD []).any (fun p => (rt p ctx.text).getD false) := by
    rw [shouldRespondToMessage, hdm, if_neg (by simp), hmc, hm,
      checkSingleMode]
    cases hp : f.patterns with
    | none => simp [hp]
    | some ps =>
      cases ps with
      | nil => simp
      | cons a as =>
        have hmatch : ∀ p,
            (match rt p ctx.text with | some b => b | none => false) =
              (rt p ctx.text).getD false := fun p => by
          cases rt p ctx.text <;> rfl
        simp [hmatch]
  refine ⟨hmain, fun hall => ?_⟩
  rw [hmain, List.any_eq_false]
  intro p hp
  rw [hall p hp]
  simp

/-- Witness for C6 at a concrete input (scenario C of the spec): the
single pattern `"[invalid"` fails to compile (`rt` returns `none`), and
the filter answers `false`. -/
theorem c6_regex_never_throws_witness :
    shouldRespondToMessage (fun _ _ => none)
      (some { mode := "regex", patterns := some ["[invalid"],
              allowDMs := false })
      ⟨"anything", false, false, false⟩ = false :=
  (c6_regex_never_throws (fun _ _ => none)
    { mode := "regex", patterns := some ["[invalid"], allowDMs := false }
    ⟨"anything", false, false, false⟩ rfl (Or.inl rfl) rfl).2
    (by intro p hp; rfl)

/-- `splitAtFirstSlash` recovers the two halves of `w ++ '/' :: c` when
`w` is slash-free. -/
theorem splitAtFirstSlash_append (w c : List Char)
    (hw : ∀ ch ∈ w, ch ≠ '/') :
    splitAtFirstSlash (w ++ '/' :: c) = some (w, c) := by
  induction w with
  | nil => simp [splitAtFirstSlash]
  | cons a as ih =>
    have ha : a ≠ '/' := hw a (by simp)
    have ih' := ih fun ch h => hw ch (by simp [h])
    simp [splitAtFirstSlash, ha, ih']

/-- C7 counterexample: the key `⟨slack, "", "C"⟩` has no `'/'` in either
component, yet `parseChannelKey (makeChannelKey k)` is `none`, not
`some k` — the regex group `([^/]+)` refuses the empty workspace id. -/
theorem c7_roundtrip_counterexample :
    (∀ ch ∈ ("" : String).data, ch ≠ '/') ∧
    (∀ ch ∈ ("C" : String).data, ch ≠ '/') ∧
    parseChannelKey (makeChannelKey ⟨Platform.slack, "", "C"⟩) ≠
      some ⟨Platform.slack, "", "C"⟩ := by
  decide

/-- C7 amended: for every key with platform in `{slack, teams}`, a
*non-empty* workspace id containing no `'/'`, and a *non-empty* channel
id containing no `'/'` and no line terminator (LF, CR, U+2028, U+2029 —
the characters JavaScript `.` cannot match, so the source's `(.+)$`
rejects them), `parseChannelKey (makeChannelKey k) = some k`. -/
theorem c7_channel_key_roundtrip (k : ChannelKey)
    (hw : k.workspaceId ≠ "") (hc : k.channelId ≠ "")
    (hwns : ∀ ch ∈ k.workspaceId.data, ch ≠ '/')
    (hcns : ∀ ch ∈ k.channelId.data, ch ≠ '/')
    (hcnt : ∀ ch ∈ k.channelId.data, isLineTerminator ch = false) :
    parseChannelKey (makeChannelKey k) = some k := by
  obtain ⟨p, w, c⟩ := k
  have hdata : (makeChannelKey ⟨p, w, c⟩).data =
      p.tag.data ++ ':' :: (w.data ++ '/' :: c.data) := by
    simp only [makeChannelKey, String.data_append]
    cases p <;> simp [Platform.tag]
  have hwd : w.data ≠ [] := fun h => hw (by cases w; simp_all)
  have hcd : c.data ≠ [] := fun h => hc (by cases c; simp_all)
  have hsplit := splitAtFirstSlash_append w.data c.data hwns
  have hany : c.data.any isLineTerminator = false := by
    rw [List.any_eq_false]
    intro ch hch
    simp [hcnt ch hch]
  cases p <;>
    simp [parseChannelKey, hdata, Platform.tag, stripPlatformTag, hsplit,
      List.isEmpty_iff, hwd, hcd, hany]

/-- Witness for the amended C7 at the concrete key
`⟨slack, "W", "C"⟩`. -/
theorem c7_channel_key_roundtrip_witness :
    parseChannelKey (makeChannelKey ⟨Platform.slack, "W", "C"⟩) =
      some ⟨Platform.slack, "W", "C"⟩ :=
  c7_channel_key_roundtrip ⟨Platform.slack, "W", "C"⟩ (by decide)
    (by decide) (by decide) (by decide) (by decide)

/-- The `foldl` step of `pickMostRecent`. -/
def pickStep (acc : Option Session) (s : Session) : Option Session :=
  match acc with
  | none => some s
  | some best => if s.lastActivity > best.lastActivity then some s else some best

theorem pickMostRecent_eq_foldl (rows : List Session) :
    pickMostRecent rows = rows.foldl pickStep none := rfl

theorem pickStep_foldl_mem (l : List Session) (b x : Session)
    (h : l.foldl pickStep (some b) = some x) : x = b ∨ x ∈ l := by
  induction l generalizing b with
  | nil => exact Or.inl (by simpa using h.symm)
  | cons a as ih =>
    simp only [List.foldl_cons, pickStep] at h
    split at h
    · rcases ih a h with h' | h'
      · exact Or.inr (by simp [h'])
      · exact Or.inr (by simp [h'])
    · rcases ih b h with h' | h'
      · exact Or.inl h'
      · exact Or.inr (by simp [h'])

theorem pickStep_foldl_ne_none (l : List Session) (b : Session) :
    l.foldl pickStep (some b) ≠ none := by
  induction l generalizing b with
  | nil => simp
  | cons a as ih =>
    simp only [List.foldl_cons, pickStep]
    split
    · exact ih a
    · exact ih b

/-- A row chosen by `ORDER BY ... LIMIT 1` is one of the candidate
rows. -/
theorem pickMostRecent_mem (rows : List Session) (x : Session)
    (h : pickMostRecent rows = some x) : x ∈ rows := by
  cases rows with
  | nil => simp [pickMostRecent] at h
  | cons a as =>
    rw [pickMostRecent_eq_foldl] at h
    simp only [List.foldl_cons, pickStep] at h
    rcases pickStep_foldl_mem as a x h with h' | h'
    · simp [h']
    · simp [h']

/-- `LIMIT 1` yields no row exactly when there is no candidate. -/
theorem pickMostRecent_eq_none_iff (rows : List Session) :
    pickMostRecent rows = none ↔ rows = [] := by
  constructor
  · intro h
    cases rows with
    | nil => rfl
    | cons a as =>
      rw [pickMostRecent_eq_foldl] at h
      simp only [List.foldl_cons, pickStep] at h
      exact absurd h (pickStep_foldl_ne_none as a)
  · rintro rfl
    rfl

/-- On a non-empty candidate list all of whose rows are the same row
`a`, the chosen row is `a`. -/
theorem pickMostRecent_const (rows : List Session) (a : Session)
    (hne : rows ≠ []) (hall : ∀ x ∈ rows, x = a) :
    pickMostRecent rows = some a := by
  cases rows with
  | nil => exact absurd rfl hne
  | cons b bs =>
    have hb : b = a := hall b (by simp)
    subst hb
    rw [pickMostRecent_eq_foldl]
    simp only [List.foldl_cons, pickStep]
    have haux : ∀ (l : List Session), (∀ x ∈ l, x = b) →
        l.foldl pickStep (some b) = some b := by
      intro l
      induction l with
      | nil => intro _; rfl
      | cons c cs ih =>
        intro hl
        have hc : c = b := hl c (by simp)
        subst hc
        simp only [List.foldl_cons, pickStep, lt_irrefl, if_neg (lt_irrefl _)]
        exact ih fun x hx => hl x (by simp [hx])
    exact haux bs fun x hx => hall x (by simp [hx])

/-- `findSession` characterization when a row is chosen. -/
theorem findSession_found (k : SessionKey) (now : Nat) (st : Store)
    (s : Session) (st' : Store) (h : findSession k now st = (some s, st')) :
    pickMostRecent (liveFor st k now) = some s ∧
      st' = { st with sessions := st.sessions.map fun x =>
        if x.id = s.id then { x with lastActivity := now } else x } := by
  unfold findSession at h
  cases hp : pickMostRecent (liveFor st k now) with
  | none => rw [hp] at h; simp at h
  | some row =>
    rw [hp] at h
    have hrow : row = s := by
      have := congrArg Prod.fst h
      simpa using this
    subst hrow
    exact ⟨rfl, (congrArg Prod.snd h).symm⟩

/-- `findSession` characterization when no row is chosen: the lookup
misses exactly when no live row matches, and the store is untouched. -/
theorem findSession_none (k : SessionKey) (now : Nat) (st : Store)
    (h : liveFor st k now = []) : findSession k now st = (none, st) := by
  unfold findSession
  rw [h]
  rfl

/-- Membership in the live rows unpacked. -/
theorem mem_liveFor (st : Store) (k : SessionKey) (t : Nat) (s : Session) :
    s ∈ liveFor st k t ↔
      s ∈ st.sessions ∧ matchesKey s k = true ∧ t < s.expiresAt := by
  simp [liveFor, List.mem_filter, and_assoc]

/-- C2: `findSession` never returns a session whose expiry is not
strictly in the future of the lookup time — the query's
`expires_at > now` conjunct filters expired rows out, independently of
whether `cleanupExpiredSessions` has run on the store. -/
theorem c2_lookup_never_returns_expired (k : SessionKey) (now : Nat)
    (st : Store) (s : Session) (st' : Store)
    (h : findSession k now st = (some s, st')) : now < s.expiresAt := by
  obtain ⟨hp, -⟩ := findSession_found k now st s st' h
  have hmem := pickMostRecent_mem _ _ hp
  exact ((mem_liveFor st k now s).1 hmem).2.2

/-- Shared concrete fixtures for the witnesses. -/
def sampleKey : SessionKey := ⟨Platform.slack, "T1", "C1", some "ts1"⟩

def sampleSession : Session :=
  ⟨0, Platform.slack, "T1", "C1", some "ts1", none, 5, 100, 5⟩

def sampleStore : Store := ⟨[sampleSession], 1⟩

def sampleStoreAfterLookup : Store :=
  ⟨[{ sampleSession with lastActivity := 10 }], 1⟩

/-- Witness for C2: looking the sample session up at time 10 succeeds
(the store still holds an expired-free row) and its expiry lies in the
future. -/
theorem c2_lookup_never_returns_expired_witness :
    10 < sampleSession.expiresAt :=
  c2_lookup_never_returns_expired sampleKey 10 sampleStore sampleSession
    sampleStoreAfterLookup (by decide)

/-- C3 counterexample: create a session at time 0 with ttl 100
(`expiresAt = 100`), then look it up at time 50.  The lookup succeeds and
bumps `lastActivity` to 50, but the stored `expiresAt` is still 100 —
not the refreshed `50 + 100` the claim's "refreshes … its expiry
timestamp" would require.  `findSession` runs
`UPDATE sessions SET last_activity = ?` only; `expires_at` is touched
solely by `extendSession`. -/
theorem c3_counterexample_lookup_leaves_expiry :
    ((findSession sampleKey 50
        (createSession sampleKey 100 0 ⟨[], 0⟩).2).1).isSome = true ∧
    ((findSession sampleKey 50
        (createSession sampleKey 100 0 ⟨[], 0⟩).2).2).sessions.map
        (fun s => s.lastActivity) = [50] ∧
    ((findSession sampleKey 50
        (createSession sampleKey 100 0 ⟨[], 0⟩).2).2).sessions.map
        (fun s => s.expiresAt) = [100] ∧
    (100 : Nat) ≠ 50 + 100 := by
  decide

/-- C3 amended: a successful `findSession` refreshes only the
last-activity timestamp (every row with the returned id gets
`lastActivity = now`) and leaves every row's expiry unchanged; the
expiry is refreshed together with last-activity by `extendSession`,
which sets `lastActivity = now` and `expiresAt = now + ttl`. -/
theorem c3_lookup_refreshes_lastActivity_only (k : SessionKey) (now : Nat)
    (st : Store) (s : Session) (st' : Store)
    (h : findSession k now st = (some s, st')) :
    st'.sessions.map (fun x => x.expiresAt) =
      st.sessions.map (fun x => x.expiresAt) ∧
    (∀ x ∈ st'.sessions, x.id = s.id → x.lastActivity = now) ∧
    (∀ sid ttl now2 st2, ∀ x ∈ (extendSession sid ttl now2 st2).sessions,
      x.id = sid → x.lastActivity = now2 ∧ x.expiresAt = now2 + ttl) := by
  obtain ⟨-, hst⟩ := findSession_found k now st s st' h
  subst hst
  refine ⟨?_, ?_, ?_⟩
  · simp only [List.map_map]
    refine List.map_congr_left fun x _ => ?_
    by_cases hx : x.id = s.id <;> simp [hx]
  · intro x hx hid
    obtain ⟨y, -, hy⟩ := List.mem_map.1 hx
    by_cases hyid : y.id = s.id
    · rw [if_pos hyid] at hy
      exact hy ▸ rfl
    · rw [if_neg hyid] at hy
      exact absurd (hy ▸ hid) hyid
  · intro sid ttl now2 st2 x hx hid
    obtain ⟨y, -, hy⟩ := List.mem_map.1 hx
    by_cases hyid : y.id = sid
    · rw [if_pos hyid] at hy
      exact ⟨hy ▸ rfl, hy ▸ rfl⟩
    · rw [if_neg hyid] at hy
      exact absurd (hy ▸ hid) hyid

/-- Witness for the amended C3 at the sample store: lookup at time 10. -/
theorem c3_lookup_refreshes_lastActivity_only_witness :
    sampleStoreAfterLookup.sessions.map (fun x => x.expiresAt) =
      sampleStore.sessions.map (fun x => x.expiresAt) ∧
    (∀ x ∈ sampleStoreAfterLookup.sessions, x.id = sampleSession.id →
      x.lastActivity = 10) ∧
    (∀ sid ttl now2 st2, ∀ x ∈ (extendSession sid ttl now2 st2).sessions,
      x.id = sid → x.lastActivity = now2 ∧ x.expiresAt = now2 + ttl) :=
  c3_lookup_refreshes_lastActivity_only sampleKey 10 sampleStore
    sampleSession sampleStoreAfterLookup (by decide)

/-- Bumping `last_activity` of some row neither adds nor removes live
rows: the `WHERE` clause reads only the key columns and `expires_at`. -/
theorem liveFor_update (st : Store) (k : SessionKey) (t sid now : Nat) :
    liveFor { st with sessions := st.sessions.map fun x =>
        if x.id = sid then { x with lastActivity := now } else x } k t =
      (liveFor st k t).map fun x =>
        if x.id = sid then { x with lastActivity := now } else x := by
  show (st.sessions.map fun x =>
      if x.id = sid then { x with lastActivity := now } else x).filter _ = _
  rw [List.filter_map]
  unfold liveFor
  congr 1
  apply List.filter_congr
  intro x _
  by_cases hx : x.id = sid <;> simp [hx, matchesKey]

/-- Later live rows are a sublist of earlier live rows: liveness only
decays as time advances. -/
theorem liveFor_sublist (st : Store) (k : SessionKey) {t t' : Nat}
    (h : t ≤ t') : List.Sublist (liveFor st k t') (liveFor st k t) := by
  apply List.monotone_filter_right
  intro s hs
  rw [Bool.and_eq_true] at hs ⊢
  refine ⟨hs.1, ?_⟩
  rw [decide_eq_true_eq] at hs ⊢
  omega

/-- If a key has no live row now it has none at any later time. -/
theorem liveFor_eq_nil_of_le (st : Store) (k : SessionKey) {t t' : Nat}
    (h : t ≤ t') (hnil : liveFor st k t = []) : liveFor st k t' = [] :=
  List.sublist_nil.1 (hnil ▸ liveFor_sublist st k h)

/-- A list of length at most one containing `x` is exactly `[x]`. -/
theorem eq_singleton_of_mem_of_length_le_one (l : List Session)
    (x : Session) (h : x ∈ l) (hl : l.length ≤ 1) : l = [x] := by
  cases l with
  | nil => simp at h
  | cons a as =>
    cases as with
    | nil => simp_all
    | cons b bs => simp at hl

/-- `getOrCreateSession` when the lookup hits. -/
theorem getOrCreate_eq_found (k : SessionKey) (ttl now : Nat) (st : Store)
    (row : Session) (hp : pickMostRecent (liveFor st k now) = some row) :
    getOrCreateSession k ttl now st =
      (row, { st with sessions := st.sessions.map fun x =>
        if x.id = row.id then { x with lastActivity := now } else x }) := by
  unfold getOrCreateSession findSession
  rw [hp]

/-- `getOrCreateSession` when the lookup misses. -/
theorem getOrCreate_eq_create (k : SessionKey) (ttl now : Nat) (st : Store)
    (hp : pickMostRecent (liveFor st k now) = none) :
    getOrCreateSession k ttl now st = createSession k ttl now st := by
  unfold getOrCreateSession findSession
  rw [hp]

/-- The freshly inserted row matches its key. -/
theorem matchesKey_createSession (k : SessionKey) (ttl now : Nat)
    (st : Store) : matchesKey (createSession k ttl now st).1 k = true := by
  simp [createSession, matchesKey]

/-- `getOrCreateSession` preserves "at most one live row per key" at
every time from the call onward, provided it held at call time. -/
theorem getOrCreate_preserves_atMostOneLive (k : SessionKey)
    (ttl now : Nat) (st : Store) (hpre : atMostOneLive st k now)
    (t : Nat) (ht : now ≤ t) :
    atMostOneLive (getOrCreateSession k ttl now st).2 k t := by
  have hsub := (liveFor_sublist st k ht).length_le
  cases hp : pickMostRecent (liveFor st k now) with
  | some row =>
    rw [getOrCreate_eq_found k ttl now st row hp]
    unfold atMostOneLive
    rw [liveFor_update, List.length_map]
    exact le_trans hsub hpre
  | none =>
    have hnil := (pickMostRecent_eq_none_iff _).1 hp
    rw [getOrCreate_eq_create k ttl now st hp]
    unfold atMostOneLive
    have h1 : liveFor st k t = [] := liveFor_eq_nil_of_le st k ht hnil
    show ((st.sessions ++ [(createSession k ttl now st).1]).filter _).length ≤ 1
    rw [List.filter_append]
    have h1' : st.sessions.filter
        (fun s => matchesKey s k && decide (s.expiresAt > t)) = [] := h1
    rw [h1']
    simp only [List.nil_append]
    exact le_trans (List.length_filter_le _ _) (by simp)

/-- C1: starting from a store with at most one live session for the key,
(a) two successive `getOrCreateSession` calls for the same key with no
intervening expiry (the second call happens before the first returned
session's `expiresAt`) return the same session id, and (b), (c) after
each call the store again holds at most one live (non-expired) session
for that `(platform, workspaceId, channelId, threadId)` tuple, at every
time from the respective call onward. -/
theorem c1_getOrCreate_idempotent_unique (k : SessionKey)
    (ttl t1 t2 : Nat) (st0 : Store) (h12 : t1 ≤ t2)
    (hinv : atMostOneLive st0 k t1) :
    (t2 < ((getOrCreateSession k ttl t1 st0).1).expiresAt →
      ((getOrCreateSession k ttl t2
          (getOrCreateSession k ttl t1 st0).2).1).id =
        ((getOrCreateSession k ttl t1 st0).1).id) ∧
    (∀ t, t1 ≤ t → atMostOneLive (getOrCreateSession k ttl t1 st0).2 k t) ∧
    (∀ t, t2 ≤ t →
      atMostOneLive (getOrCreateSession k ttl t2
        (getOrCreateSession k ttl t1 st0).2).2 k t) := by
  have hpres1 : ∀ t, t1 ≤ t →
      atMostOneLive (getOrCreateSession k ttl t1 st0).2 k t :=
    fun t ht => getOrCreate_preserves_atMostOneLive k ttl t1 st0 hinv t ht
  have hpres2 : ∀ t, t2 ≤ t →
      atMostOneLive (getOrCreateSession k ttl t2
        (getOrCreateSession k ttl t1 st0).2).2 k t :=
    fun t ht => getOrCreate_preserves_atMostOneLive k ttl t2 _
      (hpres1 t2 h12) t ht
  refine ⟨?_, hpres1, hpres2⟩
  intro hexp
  cases hp : pickMostRecent (liveFor st0 k t1) with
  | some row =>
    rw [getOrCreate_eq_found k ttl t1 st0 row hp] at hexp ⊢
    have hmem := pickMostRecent_mem _ _ hp
    have hsingle : liveFor st0 k t1 = [row] :=
      eq_singleton_of_mem_of_length_le_one _ _ hmem hinv
    obtain ⟨hrow_mem, hrow_match, -⟩ := (mem_liveFor st0 k t1 row).1 hmem
    have hmem2 : row ∈ liveFor st0 k t2 :=
      (mem_liveFor st0 k t2 row).2 ⟨hrow_mem, hrow_match, hexp⟩
    have hlen2 : (liveFor st0 k t2).length ≤ 1 := by
      have := (liveFor_sublist st0 k h12).length_le
      rw [hsingle] at this
      simpa using this
    have hlt2 : liveFor st0 k t2 = [row] :=
      eq_singleton_of_mem_of_length_le_one _ _ hmem2 hlen2
    have hupd : liveFor { st0 with sessions := st0.sessions.map fun x =>
        if x.id = row.id then { x with lastActivity := t1 } else x } k t2 =
        [{ row with lastActivity := t1 }] := by
      rw [liveFor_update, hlt2]
      simp
    rw [getOrCreate_eq_found k ttl t2 _ { row with lastActivity := t1 }
      (by rw [hupd]; rfl)]
  | none =>
    have hnil := (pickMostRecent_eq_none_iff _).1 hp
    rw [getOrCreate_eq_create k ttl t1 st0 hp] at hexp ⊢
    have h1 : liveFor st0 k t2 = [] := liveFor_eq_nil_of_le st0 k h12 hnil
    have hlt2 : liveFor (createSession k ttl t1 st0).2 k t2 =
        [(createSession k ttl t1 st0).1] := by
      show (st0.sessions ++ [(createSession k ttl t1 st0).1]).filter _ = _
      rw [List.filter_append]
      have h1' : st0.sessions.filter
          (fun s => matchesKey s k && decide (s.expiresAt > t2)) = [] := h1
      rw [h1']
      simp [matchesKey_createSession k ttl t1 st0, hexp]
    rw [getOrCreate_eq_found k ttl t2 _ _ (by rw [hlt2]; rfl)]

/-- Witness for C1 at concrete inputs: an empty store, calls at times 10
and 20 with ttl 100. -/
theorem c1_getOrCreate_idempotent_unique_witness :
    (20 < ((getOrCreateSession sampleKey 100 10 ⟨[], 0⟩).1).expiresAt →
      ((getOrCreateSession sampleKey 100 20
          (getOrCreateSession sampleKey 100 10 ⟨[], 0⟩).2).1).id =
        ((getOrCreateSession sampleKey 100 10 ⟨[], 0⟩).1).id) ∧
    (∀ t, 10 ≤ t →
      atMostOneLive (getOrCreateSession sampleKey 100 10 ⟨[], 0⟩).2
        sampleKey t) ∧
    (∀ t, 20 ≤ t →
      atMostOneLive (getOrCreateSession sampleKey 100 20
        (getOrCreateSession sampleKey 100 10 ⟨[], 0⟩).2).2 sampleKey t) :=
  c1_getOrCreate_idempotent_unique sampleKey 100 10 20 ⟨[], 0⟩
    (by decide) (by unfold atMostOneLive; decide)

/-- Shared concrete fixtures for the router witnesses. -/
def sampleOracles : SendOracles :=
  ⟨fun _ _ _ => Except.ok "1700000000.000100", fun _ _ => Except.ok none⟩

def emptySystemState : SystemState := ⟨⟨[], 0⟩, true, true, [], [], []⟩

def sampleSystemState : SystemState := ⟨sampleStore, true, true, [], [], []⟩

/-- C8: `sendUpdate` returns `false` — rather than signalling an error —
both when the session id is unknown to the store and when the session's
platform adapter holds no registered active context for that id.  The
embedding is total and the only platform-call site sits behind both
guards, so no evaluation of these two cases reaches it or signals an
exception. -/
theorem c8_sendUpdate_orphan_returns_false (oracles : SendOracles)
    (st : SystemState) (sid : Nat) (msg : String) (ty : UpdateType) :
    (getSessionById sid st.store = none →
      sendUpdate oracles st sid msg ty = false) ∧
    (∀ s, getSessionById sid st.store = some s →
      (s.platform = Platform.slack → mapGet st.slackContexts sid = none →
        sendUpdate oracles st sid msg ty = false) ∧
      (s.platform = Platform.teams → mapGet st.teamsContexts sid = none →
        sendUpdate oracles st sid msg ty = false)) := by
  constructor
  · intro h
    simp [sendUpdate, h]
  · intro s hs
    constructor <;> intro hplat hctx <;>
      simp [sendUpdate, hs, hplat, sendSlackUpdate, sendTeamsUpdate, hctx]

/-- Witness for C8: an unknown session id on an empty store, and a known
slack session whose adapter has no active context. -/
theorem c8_sendUpdate_orphan_returns_false_witness :
    sendUpdate sampleOracles emptySystemState 0 "late" UpdateType.progress
      = false ∧
    sendUpdate sampleOracles sampleSystemState 0 "late" UpdateType.progress
      = false :=
  ⟨(c8_sendUpdate_orphan_returns_false sampleOracles emptySystemState 0
      "late" UpdateType.progress).1 rfl,
   ((c8_sendUpdate_orphan_returns_false sampleOracles sampleSystemState 0
      "late" UpdateType.progress).2 sampleSession rfl).1 rfl rfl⟩

/-- C9 counterexample: a slack target whose channel has no cached
addressing handle anywhere (the only addressing cache,
`conversationReferences`, is empty) for which `sendToChannel`
nevertheless returns `success = true`: the slack adapter consults no
addressing cache at all and posts straight to the channel id, so when
the app is initialized and the API call succeeds the send succeeds. -/
theorem c9_counterexample_slack_succeeds_without_handle :
    mapGet emptySystemState.conversationReferences "C123" = none ∧
    (sendToChannel sampleOracles emptySystemState
      { platform := Platform.slack, channelId := "C123",
        message := "hi" }).success = true :=
  ⟨rfl, rfl⟩

/-- C9 amended: on the *teams* platform, `sendToChannel` for a channel
with no cached conversation reference returns a `{success := false}`
result carrying an error — the descriptive "must first receive a
message" text whenever the adapter is initialized — and never signals an
exception (the embedding is total; the slack adapter keeps no addressing
cache and instead posts directly, returning a caught-error result on
failure). -/
theorem c9_teams_without_reference_fails (oracles : SendOracles)
    (st : SystemState) (target : ChannelTarget)
    (hp : target.platform = Platform.teams)
    (h : mapGet st.conversationReferences target.channelId = none) :
    (sendToChannel oracles st target).success = false ∧
    (sendToChannel oracles st target).error.isSome = true ∧
    (st.teamsAdapter = true →
      (sendToChannel oracles st target).error = some
        "No conversation reference for channel - the bot must first receive a message from this channel") := by
  cases htA : st.teamsAdapter <;>
    simp [sendToChannel, hp, sendTeamsToChannel, htA, h]

/-- Witness for the amended C9: a teams target on a state with an empty
reference cache. -/
theorem c9_teams_without_reference_fails_witness :
    (sendToChannel sampleOracles emptySystemState
      { platform := Platform.teams, channelId := "19:meeting",
        message := "hi" }).success = false ∧
    (sendToChannel sampleOracles emptySystemState
      { platform := Platform.teams, channelId := "19:meeting",
        message := "hi" }).error.isSome = true ∧
    (emptySystemState.teamsAdapter = true →
      (sendToChannel sampleOracles emptySystemState
        { platform := Platform.teams, channelId := "19:meeting",
          message := "hi" }).error = some
        "No conversation reference for channel - the bot must first receive a message from this channel") :=
  c9_teams_without_reference_fails sampleOracles emptySystemState
    { platform := Platform.teams, channelId := "19:meeting",
      message := "hi" } rfl rfl

/-- C10: `getAvailableChannels` for a session id absent from the store
returns the empty list — the statically configured channels are not
offered as a fallback, even though `config` may be non-empty. -/
theorem c10_unknown_session_lists_no_channels
    (listOracle : Platform → Except String (List ChannelInfo))
    (st : SystemState) (config : List String) (sid : Nat)
    (h : getSessionById sid st.store = none) :
    getAvailableChannels listOracle st config sid = [] := by
  simp [getAvailableChannels, h]

/-- Witness for C10: an empty store with a non-empty configured channel
list still yields no channels for the unknown session id 7. -/
theorem c10_unknown_session_lists_no_channels_witness :
    getAvailableChannels (fun _ => Except.ok []) emptySystemState
      ["slack:T1/C1", "teams:T2/C2"] 7 = [] :=
  c10_unknown_session_lists_no_channels (fun _ => Except.ok [])
    emptySystemState ["slack:T1/C1", "teams:T2/C2"] 7 rfl
